import Mathlib

/-!
Verification development for the FileGenie operation dispatch and execution
engine.  The definitions below are a shallow embedding of the Flask request
handler `index` in `app.py` together with the operation scripts it dispatches
to (`scripts/segregate_by_year.py`, `scripts/compress_videos_in_folder.py`,
`scripts/image_scraper.py`, `scripts/text_extractor.py`,
`scripts/playlist_downloader.py`) and the temp-file janitor
(`utils/file_cleanup.py`).

Modelling conventions:
* The individual operation implementations are external collaborators of the
  engine; the handler embedding consults an oracle `Env.impl` that yields, for
  each operation id, either a returned manifest or a raised exception, exactly
  as the Python call would.  Where a claim is about an implementation itself
  (segregate-by-year, compress-videos, the scraper manifest, the OCR task),
  that implementation is embedded separately from its own source.
* Python falsiness of a missing or empty form field is modelled by
  `Option String` with `none` for both missing and `""`.
* `datetime.now().strftime(...)` and `int(time.time())` are modelled as the
  request-constant strings/naturals `Env.timestamp` and `Env.unixTime`.
* A Python exception is an `Exc`; `Exc.envError` distinguishes
  `EnvironmentError` (the OCR block has a dedicated handler for it).
* Filesystem reads used by the handler (`os.path.exists`, `os.walk`,
  `os.makedirs` success) are oracles in `Env`.
-/

/-- Python value that can appear in a manifest `generated_files` list: the
text-extractor appends the boolean returned by `process_single_image` rather
than a path string, so the element type must cover both. -/
inductive PyVal where
  | str (s : String)
  | bool (b : Bool)
deriving DecidableEq, Repr

/-- Python exception: message plus whether it is an `EnvironmentError`
(`app.py` gives the OCR block a dedicated `except EnvironmentError`). -/
structure Exc where
  envError : Bool := false
  msg : String
deriving DecidableEq, Repr

/-- Manifest dictionary returned by an operation implementation.  Fields the
various scripts place in their result dicts; absent keys are the defaults
(`error`/`output_dir` absent = `none`, `generated_files` absent = `[]`, which
matches the falsiness test `result.get(...)` performed by the handler). -/
structure Manifest where
  moved_total : Nat := 0
  skipped_total : Nat := 0
  error : Option String := none
  output_dir : Option String := none
  generated_files : List PyVal := []
  total_processed : Nat := 0
  errors : Nat := 0
  processed : Nat := 0
  failed : Nat := 0
deriving DecidableEq, Repr

/-- Outcome of calling an operation implementation from the handler. -/
inductive PyResult where
  | ok (m : Manifest)
  | exn (e : Exc)
deriving DecidableEq, Repr

/-- Flash message with its severity category, as produced by Flask `flash`. -/
structure Flash where
  msg : String
  cat : String
deriving DecidableEq, Repr

/-- Entry of the per-request summary map: `{'log_file': ..,
'download_link': ..}` in `app.py`. -/
structure Entry where
  log_file : String
  download_link : Option String := none
deriving DecidableEq, Repr

/-- Record of one call into an operation implementation: which operation,
which `dry_run` argument was passed (`none` when the call site does not pass
the flag at all, so the callee sees its Python default `False`), and the
`folder_path` argument. -/
structure Invocation where
  op : String
  dryArg : Option Bool
  path : Option String
deriving DecidableEq, Repr

/-- File written into the transient `temp_downloads` directory by the
packaging code: a verbatim copy or a zip archive with its member names. -/
inductive TempFile where
  | copy (name : String) (src : String)
  | zip (name : String) (members : List String)
deriving DecidableEq, Repr

/-- Mutable state accumulated while the handler processes one request:
flash messages, the `summary_data` dict (insertion-ordered association list),
the implementation calls made, and the temp-dir writes. -/
structure St where
  flashes : List Flash := []
  summary : List (String × Entry) := []
  invoked : List Invocation := []
  temp : List TempFile := []
deriving DecidableEq, Repr

/-- Request form fields consumed by the handler (`request.form`).  A missing
or empty text field is `none`. -/
structure ReqForm where
  folder_path : Option String := none
  operations : List String := []
  dry_run : Bool := false
  target_date : Option String := none
  playlist_url : Option String := none
  playlist_resolution : String := "1080p"
  scraper_urls : String := ""
  scraper_dynamic : Bool := false
  destination_mode : String := "2"
  custom_dest_path : String := ""
deriving Repr

/-- Process environment and external-world oracles for one request. -/
structure Env where
  cwd : String
  timestamp : String
  unixTime : Nat
  pathExists : String → Bool
  mkdirRaises : String → Option String
  walkFiles : String → List String
  impl : String → Bool → PyResult

/-- Joins two path segments, `os.path.join` with forward slashes. -/
def pathJoin (a b : String) : String := a ++ "/" ++ b

/-- Last path component, `os.path.basename` for slash-separated paths. -/
def basename (p : String) : String := (p.splitOn "/").getLastD p

/-- Python `str.strip` (whitespace trim), written over the character list so
it evaluates in the kernel. -/
def strTrim (s : String) : String :=
  String.mk (((s.toList.dropWhile Char.isWhitespace).reverse.dropWhile
    Char.isWhitespace).reverse)

/-- Log directory `LOG_DIR = os.path.join(os.getcwd(), 'logs')`. -/
def logDir (env : Env) : String := pathJoin env.cwd "logs"

/-- Python dict assignment `m[k] = v` on an insertion-ordered map: replaces
the value in place if the key exists, otherwise appends. -/
def setKey (m : List (String × Entry)) (k : String) (v : Entry) :
    List (String × Entry) :=
  match m with
  | [] => [(k, v)]
  | (k0, v0) :: rest =>
      if k0 = k then (k0, v) :: rest else (k0, v0) :: setKey rest k v

/-- Python `m[k]['download_link'] = link` on the summary map. -/
def updateLink (m : List (String × Entry)) (k link : String) :
    List (String × Entry) :=
  m.map fun p => if p.1 = k then (p.1, { p.2 with download_link := some link }) else p

/-- Lookup in the summary map. -/
def lookupKey (m : List (String × Entry)) (k : String) : Option Entry :=
  match m with
  | [] => none
  | (k0, v0) :: rest => if k0 = k then some v0 else lookupKey rest k

/-- Appends a flash message, Flask `flash(msg, cat)`. -/
def St.flash (st : St) (msg cat : String) : St :=
  { st with flashes := st.flashes ++ [⟨msg, cat⟩] }

/-- Records a call into an operation implementation. -/
def St.invoke (st : St) (op : String) (dryArg : Option Bool)
    (path : Option String) : St :=
  { st with invoked := st.invoked ++ [⟨op, dryArg, path⟩] }

/-- Records a write into the temp-downloads directory. -/
def St.addTemp (st : St) (t : TempFile) : St :=
  { st with temp := st.temp ++ [t] }

/-- Performs `summary_data[op] = e`. -/
def St.setEntry (st : St) (op : String) (e : Entry) : St :=
  { st with summary := setKey st.summary op e }

/-- Performs `summary_data[op]['download_link'] = link`. -/
def St.setLink (st : St) (op link : String) : St :=
  { st with summary := updateLink st.summary op link }

/-- Result of a block body run inside `try:`: either it completed, or it
raised; Python keeps the state mutations made before the raise, so the raised
constructor carries the state at the moment of the exception. -/
inductive BRes where
  | done (st : St)
  | raised (st : St) (e : Exc)
deriving DecidableEq, Repr

/-- Models `except Exception as e: flash(errFmt(e), 'danger')` around a block
body. -/
def tryExcept (errFmt : Exc → String) (r : BRes) : St :=
  match r with
  | .done st => st
  | .raised st e => st.flash (errFmt e) "danger"

/-- NameError raised when a block evaluates `timestamp` although validation
left it unassigned (`timestamp` is only bound under `if folder_path:`); the
Python message quotes the identifier name. -/
def excNameErrorTimestamp : Exc := ⟨false, "name timestamp is not defined"⟩

/-- ValueError raised by `asyncio.run` when it is handed the `None` returned
by a synchronous script called where a coroutine is expected
(`compress_videos_in_folder` and `detect_and_move_corrupt_files` are plain
functions, yet `app.py` wraps their calls in `asyncio.run`). -/
def excCoroutine : Exc := ⟨false, "a coroutine was expected, got None"⟩

/-- TypeError raised by `os.path.basename` when its argument is the boolean
`True` instead of a path. -/
def excBasenameTypeError : Exc :=
  ⟨false, "expected str, bytes or os.PathLike object, not bool"⟩

/-- The two operations that need only a URL, `URL_ONLY_OPERATIONS` in
`app.py`. -/
def URL_ONLY_OPERATIONS : List String := ["scrape_images", "download_playlist"]

/-- Result of target validation: the possibly-rewritten `folder_path` and the
flash messages produced. -/
structure ValidOut where
  folder_path : Option String
  flashes : List Flash
deriving Repr

/-- Smart validation logic of `app.py` lines 80–111: classification into
URL-only requests, default-path substitution, path-required rejection,
existence check with output-directory auto-creation.  The trailing
`if folder_path and os.path.isfile(folder_path): pass` is a no-op and is
omitted. -/
def validateTarget (env : Env) (req : ReqForm) : ValidOut :=
  let has_source_ops :=
    req.operations.any fun op => !(URL_ONLY_OPERATIONS.contains op)
  let sub :=
    if req.folder_path = none && !has_source_ops && !req.operations.isEmpty then
      let d := pathJoin env.cwd "downloads"
      (some d, [(⟨s!"ℹ️ No path provided. Defaulting to: {d}", "info"⟩ : Flash)])
    else (req.folder_path, ([] : List Flash))
  match sub with
  | (none, fl) =>
      ⟨none, fl ++ [⟨"❌ Please enter a valid path.", "danger"⟩]⟩
  | (some p, fl) =>
      if !(env.pathExists p) then
        if !has_source_ops && !req.operations.isEmpty then
          match env.mkdirRaises p with
          | none => ⟨some p, fl ++ [⟨s!"✅ Created output directory: {p}", "success"⟩]⟩
          | some e => ⟨none, fl ++ [⟨s!"❌ Could not create directory: {e}", "danger"⟩]⟩
        else ⟨none, fl ++ [⟨"❌ Target path does not exist.", "danger"⟩]⟩
      else ⟨some p, fl⟩

/-- Request context shared by all operation blocks: environment, form data,
the validated `folder_path`, and `timestamp` (bound only when the path was
accepted; evaluating it otherwise raises NameError). -/
structure Ctx where
  env : Env
  req : ReqForm
  fp : Option String
  ts : Option String

/-- Generic shape shared by the simple operation blocks in the handler chain
(`app.py` lines 116–311): derive the log-file path from a per-operation stem
and `timestamp`, call the implementation, flash the success message built from
the returned manifest, and store `{'log_file': basename(log_file)}` in the
summary.  `dryArg = none` models call sites that do not pass `dry_run`
(`compress_videos_in_folder`, `detect_and_move_corrupt_files`,
`process_movies`); `coroBug = true` models wrapping a synchronous script in
`asyncio.run`, which raises after the script has already run. -/
def stdBlock (ctx : Ctx) (op logStem : String) (dryArg : Option Bool)
    (coroBug : Bool) (mkMsg : Manifest → String) (errLabel : String)
    (st : St) : St :=
  tryExcept (fun e => errLabel ++ ": " ++ e.msg) <|
    match ctx.ts with
    | none => .raised st excNameErrorTimestamp
    | some t =>
        let log_file := pathJoin (logDir ctx.env) (logStem ++ "_" ++ t ++ ".txt")
        let st := st.invoke op dryArg ctx.fp
        match ctx.env.impl op (dryArg.getD false) with
        | .exn e => .raised st e
        | .ok r =>
            if coroBug then .raised st excCoroutine
            else .done ((st.flash (mkMsg r) "success").setEntry op ⟨basename log_file, none⟩)

/-- Block for `modify_image_dates` (`app.py` lines 252–266): requires the
`target_date` form field; its absence is a warning local to this operation. -/
def blockModifyImageDates (ctx : Ctx) (st : St) : St :=
  tryExcept (fun e => "❌ Error in date modification: " ++ e.msg) <|
    match ctx.req.target_date with
    | none =>
        .done (st.flash "❌ Please select a target date for image modification." "warning")
    | some _ =>
        match ctx.ts with
        | none => .raised st excNameErrorTimestamp
        | some t =>
            let log_file := pathJoin (logDir ctx.env) ("date_mod_log_" ++ t ++ ".txt")
            let st := st.invoke "modify_image_dates" (some ctx.req.dry_run) ctx.fp
            match ctx.env.impl "modify_image_dates" ctx.req.dry_run with
            | .exn e => .raised st e
            | .ok r =>
                let m := r.moved_total
                let s := r.skipped_total
                let st := st.flash s!"✅ Date modification done. {m} processed, {s} failed." "success"
                .done (st.setEntry "modify_image_dates" ⟨basename log_file, none⟩)

/-- Body of the `download_playlist` block (`app.py` lines 268–288): requires
`playlist_url`; a manifest with a truthy `error` string is flashed as a
danger message, and the summary entry is recorded either way.  The call
passes no `dry_run` flag. -/
def blockDownloadPlaylistBody (ctx : Ctx) (st : St) : BRes :=
  match ctx.req.playlist_url with
  | none => .done (st.flash "❌ Please enter a playlist URL." "warning")
  | some _ =>
      match ctx.ts with
      | none => .raised st excNameErrorTimestamp
      | some t =>
          let log_file := pathJoin (logDir ctx.env) ("playlist_log_" ++ t ++ ".txt")
          let st := st.invoke "download_playlist" none ctx.fp
          match ctx.env.impl "download_playlist" false with
          | .exn e => .raised st e
          | .ok r =>
              let errv := r.error.getD ""
              let st :=
                if errv = "" then
                  st.flash "✅ Playlist download task finished. Check logs." "success"
                else st.flash errv "danger"
              .done (st.setEntry "download_playlist" ⟨basename log_file, none⟩)

/-- The `download_playlist` block with its exception handler. -/
def blockDownloadPlaylist (ctx : Ctx) (st : St) : St :=
  tryExcept (fun e => "❌ Error in playlist download: " ++ e.msg)
    (blockDownloadPlaylistBody ctx st)

/-- Body of the `backup_git_work` block (`app.py` lines 290–302): same soft
failure handling of a manifest `error` string; no `dry_run` flag is passed. -/
def blockBackupGitWorkBody (ctx : Ctx) (st : St) : BRes :=
  match ctx.ts with
  | none => .raised st excNameErrorTimestamp
  | some t =>
      let log_file := pathJoin (logDir ctx.env) ("git_backup_log_" ++ t ++ ".txt")
      let st := st.invoke "backup_git_work" none ctx.fp
      match ctx.env.impl "backup_git_work" false with
      | .exn e => .raised st e
      | .ok r =>
          let errv := r.error.getD ""
          let st :=
            if errv = "" then
              let m := r.moved_total
              st.flash s!"✅ Git Backup completed. {m} files backed up." "success"
            else st.flash errv "danger"
          .done (st.setEntry "backup_git_work" ⟨basename log_file, none⟩)

/-- The `backup_git_work` block with its exception handler. -/
def blockBackupGitWork (ctx : Ctx) (st : St) : St :=
  tryExcept (fun e => "❌ Error in Git backup: " ++ e.msg)
    (blockBackupGitWorkBody ctx st)

/-- Body of the `scrape_images` block (`app.py` lines 313–356): requires a
non-blank URL list; flashes the processed count and records the summary
entry, then zips the scrape output only when the returned manifest carries an
`output_dir` that exists and contains files.  No `dry_run` flag is passed
(`scrape_images_task` takes none). -/
def blockScrapeImagesBody (ctx : Ctx) (st : St) : BRes :=
  if strTrim ctx.req.scraper_urls = "" then
    .done (st.flash "❌ No URLs provided for scraping." "warning")
  else
    match ctx.ts with
    | none => .raised st excNameErrorTimestamp
    | some t =>
        let log_file := pathJoin (logDir ctx.env) ("scraper_log_" ++ t ++ ".txt")
        let st := st.invoke "scrape_images" none ctx.fp
        match ctx.env.impl "scrape_images" false with
        | .exn e => .raised st e
        | .ok r =>
            let total := r.total_processed
            let st := st.flash s!"✅ Scraping finished. Processed {total} URLs." "success"
            let st := st.setEntry "scrape_images" ⟨basename log_file, none⟩
            match r.output_dir with
            | none => .done st
            | some d =>
                if ctx.env.pathExists d then
                  let files := ctx.env.walkFiles d
                  if !files.isEmpty then
                    let n := ctx.env.unixTime
                    let zip_name := s!"Scraped_Images_{n}.zip"
                    let st := st.addTemp (.zip zip_name files)
                    .done (st.setLink "scrape_images" zip_name)
                  else
                    if r.total_processed > 0 then
                      .done (st.flash "⚠️ Scraper ran but no images were saved (possibly too small or protected)." "warning")
                    else .done st
                else .done st

/-- The `scrape_images` block with its exception handler. -/
def blockScrapeImages (ctx : Ctx) (st : St) : St :=
  tryExcept (fun e => "❌ Error in image scraper: " ++ e.msg)
    (blockScrapeImagesBody ctx st)

/-- Writes zip members for the OCR result archive: `zipf.write(f,
os.path.basename(f))` per generated file; evaluating the basename of a
non-path raises, leaving the members written so far in the archive. -/
def writeMembers : List PyVal → (List String × Option Exc)
  | [] => ([], none)
  | .str s :: rest =>
      let r := writeMembers rest
      (basename s :: r.1, r.2)
  | .bool _ :: _ => ([], some excBasenameTypeError)

/-- Body of the `extract_text` block (`app.py` lines 358–383): flashes the
processed count, records the summary entry, then packages the generated
files: a single file is copied into the temp dir under its basename, several
files are zipped as `OCR_Results_{unix_timestamp}.zip`; the download link is
attached afterwards. -/
def blockExtractTextBody (ctx : Ctx) (st : St) : BRes :=
  match ctx.ts with
  | none => .raised st excNameErrorTimestamp
  | some t =>
      let log_file := pathJoin (logDir ctx.env) ("ocr_log_" ++ t ++ ".txt")
      let st := st.invoke "extract_text" (some ctx.req.dry_run) ctx.fp
      match ctx.env.impl "extract_text" ctx.req.dry_run with
      | .exn e => .raised st e
      | .ok r =>
          let p := r.processed
          let st := st.flash s!"✅ OCR completed. Processed {p} images." "success"
          let st := st.setEntry "extract_text" ⟨basename log_file, none⟩
          let files := r.generated_files
          if files.isEmpty then .done st
          else
            if files.length = 1 then
              match files with
              | .str src :: _ =>
                  let filename := basename src
                  let st := st.addTemp (.copy filename src)
                  .done (st.setLink "extract_text" filename)
              | _ => .raised st excBasenameTypeError
            else
              let n := ctx.env.unixTime
              let zip_name := s!"OCR_Results_{n}.zip"
              match writeMembers files with
              | (written, some e) => .raised (st.addTemp (.zip zip_name written)) e
              | (written, none) =>
                  let st := st.addTemp (.zip zip_name written)
                  .done (st.setLink "extract_text" zip_name)

/-- The `extract_text` block with its two exception handlers
(`EnvironmentError` first, then the generic one). -/
def blockExtractText (ctx : Ctx) (st : St) : St :=
  tryExcept
    (fun e =>
      if e.envError then "❌ Dependency Error: " ++ e.msg
      else "❌ Error in OCR: " ++ e.msg)
    (blockExtractTextBody ctx st)

/-- The dispatch chain of `app.py` lines 116–389, in source order: one
`(operation id, block)` pair per `if op in operations:` block. -/
def opChain (ctx : Ctx) : List (String × (St → St)) :=
  [ ("segregate_by_year",
      stdBlock ctx "segregate_by_year" "year_log" (some ctx.req.dry_run) false
        (fun r =>
          let m := r.moved_total
          let s := r.skipped_total
          s!"✅ Year-based segregation done. {m} moved, {s} skipped.")
        "❌ Error in year segregation"),
    ("segregate_files_by_resolution",
      stdBlock ctx "segregate_files_by_resolution" "year_log" (some ctx.req.dry_run) false
        (fun r =>
          let m := r.moved_total
          let s := r.skipped_total
          s!"✅ Resolution-based segregation done. {m} moved, {s} skipped.")
        "❌ Error in year segregation"),
    ("segregate_files_by_height",
      stdBlock ctx "segregate_files_by_height" "year_log" (some ctx.req.dry_run) false
        (fun r =>
          let m := r.moved_total
          let s := r.skipped_total
          s!"✅ Height Resolution-based segregation done. {m} moved, {s} skipped.")
        "❌ Error in year segregation"),
    ("compress_videos_in_folder",
      stdBlock ctx "compress_videos_in_folder" "year_log" none true
        (fun r =>
          let m := r.moved_total
          let s := r.skipped_total
          s!"✅ Compressed videos done. {m} moved, {s} skipped.")
        "❌ Error in year segregation"),
    ("compress_images",
      stdBlock ctx "compress_images" "compress_images_log" (some ctx.req.dry_run) false
        (fun r =>
          let m := r.moved_total
          let s := r.skipped_total
          s!"✅ Image compression done. {m} processed, {s} failed.")
        "❌ Error in image compression"),
    ("detect_and_move_corrupt_files",
      stdBlock ctx "detect_and_move_corrupt_files" "year_log" none true
        (fun r =>
          let m := r.moved_total
          let s := r.skipped_total
          s!"✅ Detect and move corrupt files done. {m} moved, {s} skipped.")
        "❌ Error in year segregation"),
    ("segregate_by_size",
      stdBlock ctx "segregate_by_size" "size_log" (some ctx.req.dry_run) false
        (fun _ => "✅ Size-based segregation completed.")
        "❌ Error in size segregation"),
    ("move_long_videos",
      stdBlock ctx "move_long_videos" "video_log" (some ctx.req.dry_run) false
        (fun _ => "✅ Long video segregation completed.")
        "❌ Error in long video segregation"),
    ("rename_files",
      stdBlock ctx "rename_files" "rename_ext_log" (some ctx.req.dry_run) false
        (fun _ => "✅ Extension-based renaming completed.")
        "❌ Error in renaming files"),
    ("smart_rename",
      stdBlock ctx "smart_rename" "smart_rename_log" (some ctx.req.dry_run) false
        (fun _ => "✅ Smart renaming completed.")
        "❌ Error during smart renaming"),
    ("process_movies",
      stdBlock ctx "process_movies" "smart_rename_log" none false
        (fun _ => "✅ Smart renaming completed.")
        "❌ Error during smart renaming"),
    ("sort_move_files",
      stdBlock ctx "sort_move_files" "sort_move_log" (some ctx.req.dry_run) false
        (fun r =>
          let m := r.moved_total
          let s := r.skipped_total
          s!"✅ Sort & Move by extension completed. {m} moved, {s} skipped.")
        "❌ Error in sort & move files"),
    ("modify_image_dates", blockModifyImageDates ctx),
    ("download_playlist", blockDownloadPlaylist ctx),
    ("backup_git_work", blockBackupGitWork ctx),
    ("organize_media",
      stdBlock ctx "organize_media" "media_organizer_log" (some ctx.req.dry_run) false
        (fun _ => "✅ Media organization completed. Check logs for details.")
        "❌ Error in media organization"),
    ("scrape_images", blockScrapeImages ctx),
    ("extract_text", blockExtractText ctx) ]

/-- Runs the dispatch chain: each block executes exactly when its operation
id occurs in the requested list (`if op in operations:`). -/
def runOps (ctx : Ctx) (st : St) : St :=
  (opChain ctx).foldl
    (fun st p => if ctx.req.operations.contains p.1 then p.2 st else st) st

/-- Result of handling one POST request: the final flashes, summary map,
recorded implementation calls, temp-dir writes, and the resolved target. -/
structure HandlerOut where
  flashes : List Flash
  summary : List (String × Entry)
  invoked : List Invocation
  temp : List TempFile
  resolved : Option String
deriving Repr

/-- POST branch of `index` in `app.py` for a fresh session (the
`summary_data` carried over a redirect is empty): the short-circuit for a
request with neither path nor operations, then validation, then the dispatch
chain over a `timestamp` that is bound only when the path was accepted. -/
def postIndex (env : Env) (req : ReqForm) : HandlerOut :=
  if req.folder_path = none && req.operations.isEmpty then
    ⟨[⟨"❌ Please select an operation.", "warning"⟩], [], [], [], none⟩
  else
    let v := validateTarget env req
    let ts : Option String := if v.folder_path.isSome then some env.timestamp else none
    let st := runOps ⟨env, req, v.folder_path, ts⟩ ⟨v.flashes, [], [], []⟩
    ⟨st.flashes, st.summary, st.invoked, st.temp, v.folder_path⟩

/-!
Embedding of `scripts/segregate_by_year.py`.  A directory is its basename,
its top-level regular files (name plus modification-time year from `stat`)
and its subdirectories with their contents.
-/

/-- Top-level file of the target directory: name and the year of its
modification time (`datetime.fromtimestamp(path.stat().st_mtime).year`). -/
structure YFile where
  name : String
  mtimeYear : Nat
deriving DecidableEq, Repr

/-- Target directory for year segregation: its own basename (the
`parent.name` of its top-level files), its top-level files, and its
subdirectories (name, files). -/
structure YDir where
  dirName : String
  files : List YFile
  subdirs : List (String × List YFile)
deriving DecidableEq, Repr

/-- Tests for a regex word character; approximates the `\b` boundary of
`YEAR_PATTERN` for ASCII names. -/
def isWordChar (c : Char) : Bool := c.isAlphanum || c = '_'

/-- Scans for the first match of `\b(19|20)\d{2}\b` (`YEAR_PATTERN.search`):
four digits starting `19` or `20`, not adjacent to word characters. -/
def findYearMatch (prev : Option Char) : List Char → Option Nat
  | c1 :: c2 :: c3 :: c4 :: rest =>
      if ((c1 = '1' && c2 = '9') || (c1 = '2' && c2 = '0')) && c3.isDigit && c4.isDigit
          && !(prev.elim false isWordChar)
          && !(rest.head?.elim false isWordChar) then
        some ((c1.toNat - 48) * 1000 + (c2.toNat - 48) * 100 +
              (c3.toNat - 48) * 10 + (c4.toNat - 48))
      else findYearMatch (some c1) (c2 :: c3 :: c4 :: rest)
  | _ => none

/-- Embeds `extract_year_from_filename`. -/
def extract_year_from_filename (name : String) : Option Nat :=
  findYearMatch none name.toList

/-- Year chosen by `process_file`: `name_year if name_year == mod_year else
mod_year` (a `None` name year compares unequal to any int). -/
def process_file_target_year (f : YFile) : Nat :=
  let mod_year := f.mtimeYear
  let name_year := extract_year_from_filename f.name
  match name_year with
  | some y => if y = mod_year then y else mod_year
  | none => mod_year

/-- Inserts a file into a named subdirectory, creating it if needed
(`ensure_folder_exists` plus `shutil.move` destination). -/
def addToSubdir (subs : List (String × List YFile)) (d : String) (f : YFile) :
    List (String × List YFile) :=
  match subs with
  | [] => [(d, [f])]
  | (d0, fs) :: rest =>
      if d0 = d then (d0, fs ++ [f]) :: rest else (d0, fs) :: addToSubdir rest d f

/-- Embeds `move_file_to_year_folder`: skip when the file is already inside a
folder named after the year (for a top-level file the parent is the target
directory itself), log-only under `dry_run`, otherwise move the file into the
year subfolder. -/
def move_file_to_year_folder (dry_run : Bool) (d : YDir) (f : YFile)
    (year : Nat) : String × YDir :=
  if d.dirName = toString year then ("skipped", d)
  else if dry_run then ("moved", d)
  else
    ("moved",
      { d with
          files := d.files.erase f,
          subdirs := addToSubdir d.subdirs (toString year) f })

/-- Embeds `segregate_files_by_year` on a valid directory: processes the
snapshot of top-level files in order and counts the `moved`/`skipped`
results. -/
def segregate_files_by_year (dry_run : Bool) (d : YDir) :
    (Nat × Nat) × YDir :=
  let step := fun (acc : List String × YDir) (f : YFile) =>
    let r := move_file_to_year_folder dry_run acc.2 f (process_file_target_year f)
    (acc.1 ++ [r.1], r.2)
  let out := d.files.foldl step ([], d)
  ((out.1.count "moved", out.1.count "skipped"), out.2)

/-!
Embedding of `scripts/compress_videos_in_folder.py` over the target
directory: top-level entry names plus the contents of the `Compressed`
subfolder (`none` when that subfolder does not exist yet).
-/

/-- Video extensions recognised by `compress_videos_in_folder`. -/
def video_extensions : List String :=
  [".mp4", ".mkv", ".avi", ".mov", ".flv", ".wmv"]

/-- Python `str.lower` on a suffix (character-wise lowering). -/
def strToLower (s : String) : String := String.mk (s.toList.map Char.toLower)

/-- Embeds `pathlib.Path(name).suffix`: the final dotted extension, empty
when the last dot is at position 0 or at the very end. -/
def pathSuffix (name : String) : String :=
  let cs := name.toList
  let idxs := (List.range cs.length).filter fun i => cs.getD i ' ' = '.'
  match idxs.getLast? with
  | none => ""
  | some i =>
      if 0 < i && i < cs.length - 1 then String.mk (cs.drop i) else ""

/-- Adds a name to the `Compressed` folder contents; `ffmpeg -y` overwrites,
so an existing name is not duplicated. -/
def upsertName (names : List String) (n : String) : List String :=
  if names.contains n then names else names ++ [n]

/-- Embeds `compress_videos_in_folder` on a valid directory: the
`Compressed` subfolder is created (`mkdir(exist_ok=True)`) before any file
check, then every top-level entry with a video suffix is transcoded into it;
`ffmpegOk` tells which ffmpeg invocations succeed. -/
structure VDir where
  files : List String
  compressed : Option (List String)
deriving DecidableEq, Repr

/-- The compress-videos pass itself. -/
def compress_videos_in_folder (ffmpegOk : String → Bool) (d : VDir) : VDir :=
  let afterMkdir : VDir := { d with compressed := some (d.compressed.getD []) }
  let files := d.files.filter fun f => video_extensions.contains (strToLower (pathSuffix f))
  files.foldl
    (fun acc f =>
      if ffmpegOk f then
        { acc with compressed := some (upsertName (acc.compressed.getD []) f) }
      else acc)
    afterMkdir

/-!
Embedding of the manifest construction in `scrape_images_task`
(`scripts/image_scraper.py` lines 194–223): the result dict is created as
`{'total_processed': 0, 'errors': 0}` and the loop only ever updates those
two keys, so the returned manifest never carries an `output_dir`.
-/

/-- Outcome of `scrape_static`/`scrape_dynamic` for one URL: a per-URL dict
whose `error` key may be set, or an exception caught by the loop. -/
inductive ScrapeUrlRes where
  | res (error : Option String)
  | raisesExc (e : String)

/-- Embeds the result-dict construction of `scrape_images_task`. -/
def scrape_images_task_result (urls : List String)
    (runUrl : String → ScrapeUrlRes) : Manifest :=
  urls.foldl
    (fun acc url =>
      let u := strTrim url
      if u = "" then acc
      else
        match runUrl u with
        | .res err =>
            { acc with
                errors := acc.errors + (if err.isSome then 1 else 0),
                total_processed := acc.total_processed + 1 }
        | .raisesExc _ => { acc with errors := acc.errors + 1 })
    { total_processed := 0, errors := 0 }

/-!
Embedding of `scripts/text_extractor.py`: `process_single_image` returns a
boolean (`True` after writing the `_OCR` output file, `False` when no text
was found or a non-Tesseract failure occurred), and `extract_text_task`
appends that return value — not the written path — to `generated_files`.
-/

/-- Abstract outcome of OCR on one image, covering the branch structure of
`process_single_image`. -/
inductive OcrStep where
  | tesseractMissing
  | imageFails (e : String)
  | noText
  | extracted (text : String)

/-- Tests for the successful-extraction outcome. -/
def OcrStep.isExtracted : OcrStep → Bool
  | .extracted _ => true
  | _ => false

/-- Embeds `process_single_image`: raises `EnvironmentError` when Tesseract
is missing, returns `False` on empty text or a caught failure, and returns
`True` after saving the output document (note: it returns the boolean, not
the `output_path` it wrote). -/
def process_single_image (step : OcrStep) : Except Exc Bool :=
  match step with
  | .tesseractMissing =>
      .error ⟨true, "Tesseract OCR binary not found. Please install Tesseract."⟩
  | .imageFails _ => .ok false
  | .noText => .ok false
  | .extracted _ => .ok true

/-- Per-file loop of `extract_text_task`: `output_path =
process_single_image(...)`; a truthy return bumps `processed` and appends
`output_path` (the boolean) to `generated_files`; `EnvironmentError` aborts
the whole task; any other exception bumps `failed`. -/
def ocrLoop (ocr : String → Except Exc Bool) :
    List String → Manifest → Except Exc Manifest
  | [], acc => .ok acc
  | f :: rest, acc =>
      match ocr f with
      | .ok b =>
          if b then
            ocrLoop ocr rest
              { acc with
                  processed := acc.processed + 1,
                  generated_files := acc.generated_files ++ [PyVal.bool b] }
          else ocrLoop ocr rest { acc with failed := acc.failed + 1 }
      | .error e =>
          if e.envError then .error e
          else ocrLoop ocr rest { acc with failed := acc.failed + 1 }

/-- Embeds `extract_text_task` given the computed `files_to_process` list
(the filesystem walk that produces it is abstracted into the argument):
raises when Tesseract cannot be configured, returns bare counts when there is
nothing to process, count-only results under `dry_run`, and otherwise runs
the OCR loop starting from `{'processed': 0, 'failed': 0,
'generated_files': []}`. -/
def extract_text_task (tesseractFound : Bool) (dry_run : Bool)
    (files_to_process : List String) (ocr : String → Except Exc Bool) :
    Except Exc Manifest :=
  if !tesseractFound then
    .error ⟨true, "Tesseract OCR binary not found. Please install Tesseract from https://github.com/UB-Mannheim/tesseract/wiki"⟩
  else if files_to_process.isEmpty then .ok { processed := 0, failed := 0 }
  else if dry_run then .ok { processed := files_to_process.length, failed := 0 }
  else ocrLoop ocr files_to_process { processed := 0, failed := 0 }

/-!
Embedding of `cleanup_temp_files` (`utils/file_cleanup.py`, identical loop in
`app.py`): one sweep over the temp directory listing.
-/

/-- Directory entry seen by the janitor sweep: name, whether
`os.path.isfile` holds, and the `os.path.getmtime` value. -/
structure TEntry where
  name : String
  isFile : Bool
  mtime : Int
deriving DecidableEq, Repr

/-- Loop body of the sweep: each regular file older than the cutoff is
removed; a removal error (`removeFails` yields the exception message) is
printed and the loop continues with the remaining entries.  Returns the
surviving entries and the error lines. -/
def cleanupSweep (now : Int) (removeFails : String → Option String) :
    List TEntry → List TEntry × List String
  | [] => ([], [])
  | e :: rest =>
      let r := cleanupSweep now removeFails rest
      if e.isFile && decide ((now : Int) - e.mtime > 3600) then
        match removeFails e.name with
        | none => r
        | some ex =>
            let n := e.name
            (e :: r.1, (s!"Error cleaning {n}: {ex}") :: r.2)
      else (e :: r.1, r.2)

/-- Embeds `cleanup_temp_files(temp_dir)`: returns immediately when the
directory does not exist, otherwise performs one sweep with the 3600-second
cutoff. -/
def cleanup_temp_files (now : Int) (dirExists : Bool)
    (removeFails : String → Option String) (entries : List TEntry) :
    List TEntry × List String :=
  if !dirExists then (entries, [])
  else cleanupSweep now removeFails entries

/-- Relates a block input state to its output when the block neither invoked
an implementation nor touched the summary: flashes may only have been
appended. -/
def Preserves (st st2 : St) : Prop :=
  st2.summary = st.summary ∧ st2.invoked = st.invoked ∧
    ∃ l, st2.flashes = st.flashes ++ l

/-- Implementation oracle in which every operation returns an empty-default
manifest. -/
def implOkAll : String → Bool → PyResult := fun _ _ => .ok {}

/-- Sample environment: every path exists, directory creation succeeds, no
walked files, every implementation succeeds. -/
def envOkAll : Env :=
  ⟨"/app", "20240101_120000", 1700000000, fun _ => true, fun _ => none,
    fun _ => [], implOkAll⟩

/-- Request of the C1 scenario: a valid directory with `rename_files` plus an
unknown operation id. -/
def reqRenameUnknown : ReqForm :=
  { folder_path := some "/data", operations := ["rename_files", "nonexistent_op"] }

/-- Request with a supplied target and no selected operations. -/
def reqTargetNoOps : ReqForm := { folder_path := some "/data" }

/-- Request with neither target nor operations. -/
def reqEmpty : ReqForm := {}

/-- Request with no target and one source-path operation. -/
def reqNoPathRename : ReqForm := { operations := ["rename_files"] }

/-- Request with no target and only URL-only operations. -/
def reqNoPathScrape : ReqForm :=
  { operations := ["scrape_images"], scraper_urls := "http://example.com/gallery" }

/-- Dry-run request selecting the video compressor. -/
def reqDryCompress : ReqForm :=
  { folder_path := some "/videos", operations := ["compress_videos_in_folder"],
    dry_run := true }

/-- Oracle under which every ffmpeg invocation succeeds. -/
def ffmpegAll : String → Bool := fun _ => true

/-- Directory holding a single video and no `Compressed` subfolder yet. -/
def vdirOneVideo : VDir := ⟨["movie.mp4"], none⟩

/-- Manifest of a single generated OCR file. -/
def manifestOneFile : Manifest :=
  { processed := 1, generated_files := [.str "/data/report_OCR.docx"] }

/-- Manifest of three generated OCR files. -/
def manifestThreeFiles : Manifest :=
  { processed := 3,
    generated_files := [.str "/data/a_OCR.docx", .str "/data/b_OCR.docx", .str "/data/c_OCR.docx"] }

/-- Environment whose OCR implementation returns `manifestOneFile`. -/
def envOcrOne : Env :=
  { envOkAll with
      impl := fun op _ => if op = "extract_text" then .ok manifestOneFile else .ok {} }

/-- Environment whose OCR implementation returns `manifestThreeFiles`. -/
def envOcrThree : Env :=
  { envOkAll with
      impl := fun op _ => if op = "extract_text" then .ok manifestThreeFiles else .ok {} }

/-- Context for the single-file packaging witness. -/
def ctxOcrOne : Ctx := ⟨envOcrOne, {}, some "/data", some "20240101_120000"⟩

/-- Context for the three-file packaging witness. -/
def ctxOcrThree : Ctx := ⟨envOcrThree, {}, some "/data", some "20240101_120000"⟩

/-- Manifest shape actually returned by `scrape_images_task`: counts only. -/
def manifestScrape : Manifest := { total_processed := 1 }

/-- Environment whose scraper implementation returns `manifestScrape`. -/
def envScrape : Env :=
  { envOkAll with
      impl := fun op _ => if op = "scrape_images" then .ok manifestScrape else .ok {} }

/-- Context for the scraper packaging theorem witness. -/
def ctxScrape : Ctx :=
  ⟨envScrape, reqNoPathScrape, some "/app/downloads", some "20240101_120000"⟩

/-- Soft-failure manifest as produced by `download_playlist_sync` when yt-dlp
is missing. -/
def manifestSoftError : Manifest :=
  { error := some "❌ Error: yt-dlp library is missing. Please install it using: pip install yt-dlp" }

/-- Environment whose implementations return the soft-failure manifest. -/
def envSoftError : Env := { envOkAll with impl := fun _ _ => .ok manifestSoftError }

/-- Request carrying a playlist URL. -/
def reqPlaylist : ReqForm :=
  { folder_path := some "/data", operations := ["download_playlist"],
    playlist_url := some "http://example.com/playlist" }

/-- Context for the soft-failure theorem witness. -/
def ctxSoftError : Ctx := ⟨envSoftError, reqPlaylist, some "/data", some "20240101_120000"⟩

/-- OCR outcome oracle extracting text from every image. -/
def ocrStepAll : String → OcrStep := fun _ => .extracted "hello"

/-- Manifest produced by `extract_text_task` on one successfully extracted
image: the generated-files list holds the boolean `True`. -/
def manifestOcrBool : Manifest :=
  { processed := 1, generated_files := [.bool true] }

/-- Environment whose OCR implementation returns `manifestOcrBool`. -/
def envOcrBool : Env :=
  { envOkAll with
      impl := fun op _ => if op = "extract_text" then .ok manifestOcrBool else .ok {} }

/-- Context for the generated-files-are-booleans theorem witness. -/
def ctxOcrBool : Ctx := ⟨envOcrBool, {}, some "/data", some "20240101_120000"⟩

/-- Process-default download directory substituted for URL-only requests. -/
def downloadsDir (env : Env) : String := pathJoin env.cwd "downloads"

/-- Informational notice flashed when the default path is substituted. -/
def defaultPathNotice (env : Env) : Flash :=
  let d := downloadsDir env
  ⟨s!"ℹ️ No path provided. Defaulting to: {d}", "info"⟩

/-- Name of the OCR results archive, `f"OCR_Results_{int(time.time())}.zip"`. -/
def ocrZipName (n : Nat) : String := s!"OCR_Results_{n}.zip"

/-! Helper lemmas about the state operations. -/

@[simp] theorem St.flash_summary (st : St) (m c : String) :
    (st.flash m c).summary = st.summary := rfl

@[simp] theorem St.flash_invoked (st : St) (m c : String) :
    (st.flash m c).invoked = st.invoked := rfl

@[simp] theorem St.flash_temp (st : St) (m c : String) :
    (st.flash m c).temp = st.temp := rfl

@[simp] theorem St.flash_flashes (st : St) (m c : String) :
    (st.flash m c).flashes = st.flashes ++ [⟨m, c⟩] := rfl

@[simp] theorem St.invoke_summary (st : St) (op : String) (d : Option Bool)
    (p : Option String) : (st.invoke op d p).summary = st.summary := rfl

@[simp] theorem St.invoke_invoked (st : St) (op : String) (d : Option Bool)
    (p : Option String) : (st.invoke op d p).invoked = st.invoked ++ [⟨op, d, p⟩] := rfl

@[simp] theorem St.invoke_flashes (st : St) (op : String) (d : Option Bool)
    (p : Option String) : (st.invoke op d p).flashes = st.flashes := rfl

@[simp] theorem St.invoke_temp (st : St) (op : String) (d : Option Bool)
    (p : Option String) : (st.invoke op d p).temp = st.temp := rfl

@[simp] theorem St.addTemp_summary (st : St) (t : TempFile) :
    (st.addTemp t).summary = st.summary := rfl

@[simp] theorem St.addTemp_invoked (st : St) (t : TempFile) :
    (st.addTemp t).invoked = st.invoked := rfl

@[simp] theorem St.addTemp_flashes (st : St) (t : TempFile) :
    (st.addTemp t).flashes = st.flashes := rfl

@[simp] theorem St.addTemp_temp (st : St) (t : TempFile) :
    (st.addTemp t).temp = st.temp ++ [t] := rfl

@[simp] theorem St.setEntry_summary (st : St) (op : String) (e : Entry) :
    (st.setEntry op e).summary = setKey st.summary op e := rfl

@[simp] theorem St.setEntry_invoked (st : St) (op : String) (e : Entry) :
    (st.setEntry op e).invoked = st.invoked := rfl

@[simp] theorem St.setEntry_flashes (st : St) (op : String) (e : Entry) :
    (st.setEntry op e).flashes = st.flashes := rfl

@[simp] theorem St.setEntry_temp (st : St) (op : String) (e : Entry) :
    (st.setEntry op e).temp = st.temp := rfl

@[simp] theorem St.setLink_summary (st : St) (op link : String) :
    (st.setLink op link).summary = updateLink st.summary op link := rfl

@[simp] theorem St.setLink_invoked (st : St) (op link : String) :
    (st.setLink op link).invoked = st.invoked := rfl

@[simp] theorem St.setLink_flashes (st : St) (op link : String) :
    (st.setLink op link).flashes = st.flashes := rfl

@[simp] theorem St.setLink_temp (st : St) (op link : String) :
    (st.setLink op link).temp = st.temp := rfl

/-- Key membership after a dict assignment. -/
theorem mem_map_fst_setKey {m : List (String × Entry)} {k0 k : String}
    {v : Entry} :
    k ∈ (setKey m k0 v).map Prod.fst ↔ k = k0 ∨ k ∈ m.map Prod.fst := by
  induction m with
  | nil => simp [setKey]
  | cons p rest ih =>
      rcases p with ⟨k1, v1⟩
      by_cases h : k1 = k0
      · subst h; simp [setKey]
      · simp [setKey, h, ih]; tauto

/-- Attaching a download link does not change the key set. -/
theorem map_fst_updateLink (m : List (String × Entry)) (k link : String) :
    (updateLink m k link).map Prod.fst = m.map Prod.fst := by
  induction m with
  | nil => rfl
  | cons p rest ih =>
      rcases p with ⟨k1, v1⟩
      by_cases h : k1 = k
      · simp [updateLink, h] at ih ⊢; exact ih
      · simp [updateLink, h] at ih ⊢; exact ih

/-- Lookup after a dict assignment at the same key. -/
theorem lookupKey_setKey (m : List (String × Entry)) (k : String) (v : Entry) :
    lookupKey (setKey m k v) k = some v := by
  induction m with
  | nil => simp [setKey, lookupKey]
  | cons p rest ih =>
      rcases p with ⟨k1, v1⟩
      by_cases h : k1 = k
      · simp [setKey, h, lookupKey]
      · simp [setKey, h, lookupKey, ih]

/-- Lookup after attaching a download link at the same key. -/
theorem lookupKey_updateLink (m : List (String × Entry)) (k link : String) :
    lookupKey (updateLink m k link) k =
      (lookupKey m k).map fun e => { e with download_link := some link } := by
  induction m with
  | nil => simp [updateLink, lookupKey]
  | cons p rest ih =>
      rcases p with ⟨k1, v1⟩
      simp only [updateLink, List.map_cons]
      by_cases h : k1 = k
      · rw [if_pos h]
        simp [lookupKey, h]
      · rw [if_neg h]
        simp only [lookupKey]
        rw [if_neg h, if_neg h]
        simpa [updateLink] using ih

/-! Per-block facts: each dispatch block only ever writes its own summary
key, and with `timestamp` unbound no block reaches its implementation call or
its summary assignment. -/

/-- Keys written by a standard block. -/
theorem stdBlock_keys (ctx : Ctx) (op logStem : String) (dryArg : Option Bool)
    (coroBug : Bool) (mkMsg : Manifest → String) (errLabel : String) (st : St)
    (k : String)
    (h : k ∈ (stdBlock ctx op logStem dryArg coroBug mkMsg errLabel st).summary.map Prod.fst) :
    k = op ∨ k ∈ st.summary.map Prod.fst := by
  rcases hts : ctx.ts with _ | t
  · simp only [stdBlock, hts, tryExcept, St.flash_summary] at h
    exact Or.inr h
  · rcases himpl : ctx.env.impl op (dryArg.getD false) with m | e
    · by_cases hb : coroBug
      · simp only [stdBlock, hts, himpl, hb, if_true, tryExcept, St.flash_summary,
          St.invoke_summary] at h
        exact Or.inr h
      · simp only [stdBlock, hts, himpl, hb, if_false, Bool.false_eq_true, tryExcept,
          St.setEntry_summary, St.flash_summary, St.invoke_summary,
          mem_map_fst_setKey] at h
        exact h
    · simp only [stdBlock, hts, himpl, tryExcept, St.flash_summary, St.invoke_summary] at h
      exact Or.inr h

/-- Keys written by the `modify_image_dates` block. -/
theorem blockModifyImageDates_keys (ctx : Ctx) (st : St) (k : String)
    (h : k ∈ (blockModifyImageDates ctx st).summary.map Prod.fst) :
    k = "modify_image_dates" ∨ k ∈ st.summary.map Prod.fst := by
  rcases htd : ctx.req.target_date with _ | d
  · simp only [blockModifyImageDates, htd, tryExcept, St.flash_summary] at h
    exact Or.inr h
  · rcases hts : ctx.ts with _ | t
    · simp only [blockModifyImageDates, htd, hts, tryExcept, St.flash_summary] at h
      exact Or.inr h
    · rcases himpl : ctx.env.impl "modify_image_dates" ctx.req.dry_run with m | e
      · simp only [blockModifyImageDates, htd, hts, himpl, tryExcept, St.setEntry_summary,
          St.flash_summary, St.invoke_summary, mem_map_fst_setKey] at h
        exact h
      · simp only [blockModifyImageDates, htd, hts, himpl, tryExcept, St.flash_summary,
          St.invoke_summary] at h
        exact Or.inr h

/-- Keys written by the `download_playlist` block. -/
theorem blockDownloadPlaylist_keys (ctx : Ctx) (st : St) (k : String)
    (h : k ∈ (blockDownloadPlaylist ctx st).summary.map Prod.fst) :
    k = "download_playlist" ∨ k ∈ st.summary.map Prod.fst := by
  rcases hu : ctx.req.playlist_url with _ | u
  · simp only [blockDownloadPlaylist, blockDownloadPlaylistBody, hu, tryExcept,
      St.flash_summary] at h
    exact Or.inr h
  · rcases hts : ctx.ts with _ | t
    · simp only [blockDownloadPlaylist, blockDownloadPlaylistBody, hu, hts, tryExcept,
        St.flash_summary] at h
      exact Or.inr h
    · rcases himpl : ctx.env.impl "download_playlist" false with m | e
      · by_cases he : m.error.getD "" = ""
        · simp only [blockDownloadPlaylist, blockDownloadPlaylistBody, hu, hts, himpl, he,
            if_true, tryExcept, St.setEntry_summary, St.flash_summary, St.invoke_summary,
            mem_map_fst_setKey] at h
          exact h
        · simp only [blockDownloadPlaylist, blockDownloadPlaylistBody, hu, hts, himpl, he,
            if_false, tryExcept, St.setEntry_summary, St.flash_summary, St.invoke_summary,
            mem_map_fst_setKey] at h
          exact h
      · simp only [blockDownloadPlaylist, blockDownloadPlaylistBody, hu, hts, himpl,
          tryExcept, St.flash_summary, St.invoke_summary] at h
        exact Or.inr h

/-- Keys written by the `backup_git_work` block. -/
theorem blockBackupGitWork_keys (ctx : Ctx) (st : St) (k : String)
    (h : k ∈ (blockBackupGitWork ctx st).summary.map Prod.fst) :
    k = "backup_git_work" ∨ k ∈ st.summary.map Prod.fst := by
  rcases hts : ctx.ts with _ | t
  · simp only [blockBackupGitWork, blockBackupGitWorkBody, hts, tryExcept,
      St.flash_summary] at h
    exact Or.inr h
  · rcases himpl : ctx.env.impl "backup_git_work" false with m | e
    · by_cases he : m.error.getD "" = ""
      · simp only [blockBackupGitWork, blockBackupGitWorkBody, hts, himpl, he, if_true,
          tryExcept, St.setEntry_summary, St.flash_summary, St.invoke_summary,
          mem_map_fst_setKey] at h
        exact h
      · simp only [blockBackupGitWork, blockBackupGitWorkBody, hts, himpl, he, if_false,
          tryExcept, St.setEntry_summary, St.flash_summary, St.invoke_summary,
          mem_map_fst_setKey] at h
        exact h
    · simp only [blockBackupGitWork, blockBackupGitWorkBody, hts, himpl, tryExcept,
        St.flash_summary, St.invoke_summary] at h
      exact Or.inr h

/-- Keys written by the `scrape_images` block. -/
theorem blockScrapeImages_keys (ctx : Ctx) (st : St) (k : String)
    (h : k ∈ (blockScrapeImages ctx st).summary.map Prod.fst) :
    k = "scrape_images" ∨ k ∈ st.summary.map Prod.fst := by
  by_cases hu : strTrim ctx.req.scraper_urls = ""
  · simp only [blockScrapeImages, blockScrapeImagesBody, hu, if_true, tryExcept,
      St.flash_summary] at h
    exact Or.inr h
  · rcases hts : ctx.ts with _ | t
    · simp only [blockScrapeImages, blockScrapeImagesBody, hu, if_false, hts, tryExcept,
        St.flash_summary] at h
      exact Or.inr h
    · rcases himpl : ctx.env.impl "scrape_images" false with m | e
      · rcases hod : m.output_dir with _ | d
        · simp [blockScrapeImages, blockScrapeImagesBody, hu, hts, himpl, hod, tryExcept,
            mem_map_fst_setKey, -List.mem_map] at h
          tauto
        · by_cases hex : ctx.env.pathExists d = true
          · by_cases hf : (ctx.env.walkFiles d).isEmpty = true
            · by_cases htp : m.total_processed > 0
              · simp [blockScrapeImages, blockScrapeImagesBody, hu, hts, himpl, hod, hex,
                  hf, htp, tryExcept, mem_map_fst_setKey, -List.mem_map] at h
                tauto
              · simp [blockScrapeImages, blockScrapeImagesBody, hu, hts, himpl, hod, hex,
                  hf, htp, tryExcept, mem_map_fst_setKey, -List.mem_map] at h
                tauto
            · simp [blockScrapeImages, blockScrapeImagesBody, hu, hts, himpl, hod, hex,
                hf, tryExcept, mem_map_fst_setKey, map_fst_updateLink, -List.mem_map] at h
              tauto
          · simp [blockScrapeImages, blockScrapeImagesBody, hu, hts, himpl, hod, hex,
              tryExcept, mem_map_fst_setKey, -List.mem_map] at h
            tauto
      · simp only [blockScrapeImages, blockScrapeImagesBody, hu, if_false, hts, himpl,
          tryExcept, St.flash_summary, St.invoke_summary] at h
        exact Or.inr h

/-- Keys written by the `extract_text` block. -/
theorem blockExtractText_keys (ctx : Ctx) (st : St) (k : String)
    (h : k ∈ (blockExtractText ctx st).summary.map Prod.fst) :
    k = "extract_text" ∨ k ∈ st.summary.map Prod.fst := by
  rcases hts : ctx.ts with _ | t
  · simp only [blockExtractText, blockExtractTextBody, hts, tryExcept,
      St.flash_summary] at h
    exact Or.inr h
  · rcases himpl : ctx.env.impl "extract_text" ctx.req.dry_run with m | e
    · by_cases hge : m.generated_files.isEmpty = true
      · simp only [blockExtractText, blockExtractTextBody, hts, himpl, hge, if_true,
          tryExcept, St.setEntry_summary, St.flash_summary, St.invoke_summary,
          mem_map_fst_setKey] at h
        exact h
      · by_cases hlen : m.generated_files.length = 1
        · rcases hgf : m.generated_files with _ | ⟨v, rest⟩
          · rw [hgf] at hge
            simp at hge
          · rw [hgf] at hlen
            simp only [List.length_cons, Nat.add_left_eq_self, List.length_eq_zero] at hlen
            subst hlen
            rcases v with s | b
            · simp only [blockExtractText, blockExtractTextBody, hts, himpl, hgf,
                List.isEmpty_cons, List.length_singleton, if_true, tryExcept,
                St.setLink_summary, St.addTemp_summary, St.setEntry_summary,
                St.flash_summary, St.invoke_summary, map_fst_updateLink,
                mem_map_fst_setKey, Bool.false_eq_true, if_false, reduceIte,
                reduceCtorEq] at h
              exact h
            · simp only [blockExtractText, blockExtractTextBody, hts, himpl, hgf,
                List.isEmpty_cons, List.length_singleton, if_true, tryExcept,
                St.setEntry_summary, St.flash_summary, St.invoke_summary,
                mem_map_fst_setKey, Bool.false_eq_true, if_false, reduceIte,
                reduceCtorEq] at h
              exact h
        · rcases hwm : writeMembers m.generated_files with ⟨written, oe⟩
          rcases oe with _ | e
          · simp only [blockExtractText, blockExtractTextBody, hts, himpl, hge, hlen, hwm,
              Bool.false_eq_true, if_false, reduceIte, tryExcept, St.setLink_summary,
              St.addTemp_summary, St.setEntry_summary, St.flash_summary,
              St.invoke_summary, map_fst_updateLink, mem_map_fst_setKey] at h
            exact h
          · simp only [blockExtractText, blockExtractTextBody, hts, himpl, hge, hlen, hwm,
              Bool.false_eq_true, if_false, reduceIte, tryExcept, St.addTemp_summary,
              St.setEntry_summary, St.flash_summary, St.invoke_summary,
              mem_map_fst_setKey] at h
            exact h
    · simp only [blockExtractText, blockExtractTextBody, hts, himpl, tryExcept,
        St.flash_summary, St.invoke_summary] at h
      exact Or.inr h

/-- Trivial preservation. -/
theorem preserves_self (st : St) : Preserves st st :=
  ⟨rfl, rfl, [], by simp⟩

/-- Flashing preserves summary and invocations. -/
theorem preserves_flash (st : St) (m c : String) : Preserves st (st.flash m c) :=
  ⟨rfl, rfl, [⟨m, c⟩], rfl⟩

/-- Preservation composes. -/
theorem Preserves.trans {a b c : St} (h1 : Preserves a b) (h2 : Preserves b c) :
    Preserves a c := by
  obtain ⟨hs1, hi1, l1, hf1⟩ := h1
  obtain ⟨hs2, hi2, l2, hf2⟩ := h2
  exact ⟨hs2.trans hs1, hi2.trans hi1, l1 ++ l2, by rw [hf2, hf1, List.append_assoc]⟩

/-- A standard block with `timestamp` unbound only flashes the NameError. -/
theorem stdBlock_ts_none (ctx : Ctx) (op logStem : String) (dryArg : Option Bool)
    (coroBug : Bool) (mkMsg : Manifest → String) (errLabel : String) (st : St)
    (hts : ctx.ts = none) :
    Preserves st (stdBlock ctx op logStem dryArg coroBug mkMsg errLabel st) := by
  simp only [stdBlock, hts, tryExcept]
  exact preserves_flash st _ _

/-- The `modify_image_dates` block with `timestamp` unbound only flashes. -/
theorem blockModifyImageDates_ts_none (ctx : Ctx) (st : St) (hts : ctx.ts = none) :
    Preserves st (blockModifyImageDates ctx st) := by
  rcases htd : ctx.req.target_date with _ | d
  · simp only [blockModifyImageDates, htd, tryExcept]
    exact preserves_flash st _ _
  · simp only [blockModifyImageDates, htd, hts, tryExcept]
    exact preserves_flash st _ _

/-- The `download_playlist` block with `timestamp` unbound only flashes. -/
theorem blockDownloadPlaylist_ts_none (ctx : Ctx) (st : St) (hts : ctx.ts = none) :
    Preserves st (blockDownloadPlaylist ctx st) := by
  rcases hu : ctx.req.playlist_url with _ | u
  · simp only [blockDownloadPlaylist, blockDownloadPlaylistBody, hu, tryExcept]
    exact preserves_flash st _ _
  · simp only [blockDownloadPlaylist, blockDownloadPlaylistBody, hu, hts, tryExcept]
    exact preserves_flash st _ _

/-- The `backup_git_work` block with `timestamp` unbound only flashes. -/
theorem blockBackupGitWork_ts_none (ctx : Ctx) (st : St) (hts : ctx.ts = none) :
    Preserves st (blockBackupGitWork ctx st) := by
  simp only [blockBackupGitWork, blockBackupGitWorkBody, hts, tryExcept]
  exact preserves_flash st _ _

/-- The `scrape_images` block with `timestamp` unbound only flashes. -/
theorem blockScrapeImages_ts_none (ctx : Ctx) (st : St) (hts : ctx.ts = none) :
    Preserves st (blockScrapeImages ctx st) := by
  by_cases hu : strTrim ctx.req.scraper_urls = ""
  · simp only [blockScrapeImages, blockScrapeImagesBody, hu, if_true, tryExcept]
    exact preserves_flash st _ _
  · simp only [blockScrapeImages, blockScrapeImagesBody, hu, if_false, hts, tryExcept]
    exact preserves_flash st _ _

/-- The `extract_text` block with `timestamp` unbound only flashes. -/
theorem blockExtractText_ts_none (ctx : Ctx) (st : St) (hts : ctx.ts = none) :
    Preserves st (blockExtractText ctx st) := by
  simp only [blockExtractText, blockExtractTextBody, hts, tryExcept]
  exact preserves_flash st _ _

/-- Folding guarded preserving blocks preserves. -/
theorem foldl_preserves (ops : List String) (chain : List (String × (St → St)))
    (hc : ∀ p ∈ chain, ∀ st : St, Preserves st (p.2 st)) (st : St) :
    Preserves st
      (chain.foldl (fun st p => if ops.contains p.1 then p.2 st else st) st) := by
  induction chain generalizing st with
  | nil => exact preserves_self st
  | cons p rest ih =>
      simp only [List.foldl_cons]
      have h1 : Preserves st (if ops.contains p.1 then p.2 st else st) := by
        split
        · exact hc p (List.mem_cons_self p rest) st
        · exact preserves_self st
      exact h1.trans (ih (fun q hq => hc q (List.mem_cons_of_mem p hq)) _)

/-- Keys accumulated by folding guarded blocks that only write their own
key. -/
theorem foldl_keys (ops : List String) (chain : List (String × (St → St)))
    (hc : ∀ p ∈ chain, ∀ (st : St) (k : String),
      k ∈ (p.2 st).summary.map Prod.fst → k = p.1 ∨ k ∈ st.summary.map Prod.fst)
    (st : St) (k : String)
    (h : k ∈ (chain.foldl (fun st p => if ops.contains p.1 then p.2 st else st)
        st).summary.map Prod.fst) :
    k ∈ ops ∨ k ∈ st.summary.map Prod.fst := by
  induction chain generalizing st with
  | nil => exact Or.inr h
  | cons p rest ih =>
      simp only [List.foldl_cons] at h
      rcases ih (fun q hq => hc q (List.mem_cons_of_mem p hq)) _ h with hops | hmem
      · exact Or.inl hops
      · by_cases hcont : ops.contains p.1 = true
        · rw [if_pos hcont] at hmem
          rcases hc p (List.mem_cons_self p rest) st k hmem with rfl | h2
          · exact Or.inl (by simpa using hcont)
          · exact Or.inr h2
        · rw [if_neg hcont] at hmem
          exact Or.inr hmem

/-- Every block of the dispatch chain only writes its own key. -/
theorem opChain_keys (ctx : Ctx) :
    ∀ p ∈ opChain ctx, ∀ (st : St) (k : String),
      k ∈ (p.2 st).summary.map Prod.fst → k = p.1 ∨ k ∈ st.summary.map Prod.fst := by
  intro p hp
  simp only [opChain, List.mem_cons, List.not_mem_nil, or_false] at hp
  rcases hp with rfl | rfl | rfl | rfl | rfl | rfl | rfl | rfl | rfl | rfl | rfl | rfl
    | rfl | rfl | rfl | rfl | rfl | rfl
  · exact fun st k h => stdBlock_keys ctx _ _ _ _ _ _ st k h
  · exact fun st k h => stdBlock_keys ctx _ _ _ _ _ _ st k h
  · exact fun st k h => stdBlock_keys ctx _ _ _ _ _ _ st k h
  · exact fun st k h => stdBlock_keys ctx _ _ _ _ _ _ st k h
  · exact fun st k h => stdBlock_keys ctx _ _ _ _ _ _ st k h
  · exact fun st k h => stdBlock_keys ctx _ _ _ _ _ _ st k h
  · exact fun st k h => stdBlock_keys ctx _ _ _ _ _ _ st k h
  · exact fun st k h => stdBlock_keys ctx _ _ _ _ _ _ st k h
  · exact fun st k h => stdBlock_keys ctx _ _ _ _ _ _ st k h
  · exact fun st k h => stdBlock_keys ctx _ _ _ _ _ _ st k h
  · exact fun st k h => stdBlock_keys ctx _ _ _ _ _ _ st k h
  · exact fun st k h => stdBlock_keys ctx _ _ _ _ _ _ st k h
  · exact fun st k h => blockModifyImageDates_keys ctx st k h
  · exact fun st k h => blockDownloadPlaylist_keys ctx st k h
  · exact fun st k h => blockBackupGitWork_keys ctx st k h
  · exact fun st k h => stdBlock_keys ctx _ _ _ _ _ _ st k h
  · exact fun st k h => blockScrapeImages_keys ctx st k h
  · exact fun st k h => blockExtractText_keys ctx st k h

/-- With `timestamp` unbound every block of the chain preserves summary and
invocations. -/
theorem opChain_preserves (ctx : Ctx) (hts : ctx.ts = none) :
    ∀ p ∈ opChain ctx, ∀ st : St, Preserves st (p.2 st) := by
  intro p hp
  simp only [opChain, List.mem_cons, List.not_mem_nil, or_false] at hp
  rcases hp with rfl | rfl | rfl | rfl | rfl | rfl | rfl | rfl | rfl | rfl | rfl | rfl
    | rfl | rfl | rfl | rfl | rfl | rfl
  · exact fun st => stdBlock_ts_none ctx _ _ _ _ _ _ st hts
  · exact fun st => stdBlock_ts_none ctx _ _ _ _ _ _ st hts
  · exact fun st => stdBlock_ts_none ctx _ _ _ _ _ _ st hts
  · exact fun st => stdBlock_ts_none ctx _ _ _ _ _ _ st hts
  · exact fun st => stdBlock_ts_none ctx _ _ _ _ _ _ st hts
  · exact fun st => stdBlock_ts_none ctx _ _ _ _ _ _ st hts
  · exact fun st => stdBlock_ts_none ctx _ _ _ _ _ _ st hts
  · exact fun st => stdBlock_ts_none ctx _ _ _ _ _ _ st hts
  · exact fun st => stdBlock_ts_none ctx _ _ _ _ _ _ st hts
  · exact fun st => stdBlock_ts_none ctx _ _ _ _ _ _ st hts
  · exact fun st => stdBlock_ts_none ctx _ _ _ _ _ _ st hts
  · exact fun st => stdBlock_ts_none ctx _ _ _ _ _ _ st hts
  · exact fun st => blockModifyImageDates_ts_none ctx st hts
  · exact fun st => blockDownloadPlaylist_ts_none ctx st hts
  · exact fun st => blockBackupGitWork_ts_none ctx st hts
  · exact fun st => stdBlock_ts_none ctx _ _ _ _ _ _ st hts
  · exact fun st => blockScrapeImages_ts_none ctx st hts
  · exact fun st => blockExtractText_ts_none ctx st hts

/-- A fold guarded by an empty operation list does nothing. -/
theorem foldl_no_ops (chain : List (String × (St → St))) (st : St) :
    (chain.foldl
      (fun st p => if ([] : List String).contains p.1 then p.2 st else st) st) = st := by
  induction chain generalizing st with
  | nil => rfl
  | cons p rest ih => simp [List.foldl_cons, List.contains, ih]

/-- C1 (amended): the summary key set is a subset of the requested set. -/
theorem c1_summary_keys_subset (env : Env) (req : ReqForm) (k : String)
    (h : k ∈ (postIndex env req).summary.map Prod.fst) : k ∈ req.operations := by
  by_cases hg : (decide (req.folder_path = none) && req.operations.isEmpty) = true
  · rw [postIndex, if_pos hg] at h
    simp at h
  · rw [postIndex, if_neg hg] at h
    simp only [runOps] at h
    rcases foldl_keys req.operations _ (opChain_keys _) _ k h with h1 | h2
    · exact h1
    · simp at h2

/-- C1 counterexample scenario evaluated. -/
theorem c1_rename_unknown_evaluated :
    (postIndex envOkAll reqRenameUnknown).summary.map Prod.fst = ["rename_files"] ∧
    (postIndex envOkAll reqRenameUnknown).flashes =
      [⟨"✅ Extension-based renaming completed.", "success"⟩] := by
  decide

/-- Witness for the amended C1 theorem at the concrete scenario. -/
theorem c1_summary_keys_subset_witness :
    "rename_files" ∈ reqRenameUnknown.operations :=
  c1_summary_keys_subset envOkAll reqRenameUnknown "rename_files" (by decide)

/-- C3: with no target and at least one source-path operation, validation
flashes the path-required error, no implementation is invoked, and the
summary map stays empty. -/
theorem c3_missing_path_rejected (env : Env) (req : ReqForm)
    (hfp : req.folder_path = none)
    (hop : ∃ op ∈ req.operations, op ∉ URL_ONLY_OPERATIONS) :
    (⟨"❌ Please enter a valid path.", "danger"⟩ : Flash) ∈ (postIndex env req).flashes ∧
    (postIndex env req).summary = [] ∧ (postIndex env req).invoked = [] := by
  obtain ⟨op0, hmem, hnot⟩ := hop
  have hne : req.operations.isEmpty = false := by
    cases hl : req.operations with
    | nil => rw [hl] at hmem; simp at hmem
    | cons a l => simp
  have hsrc : (req.operations.any fun op => !(URL_ONLY_OPERATIONS.contains op)) = true := by
    rw [List.any_eq_true]
    exact ⟨op0, hmem, by simpa using hnot⟩
  have hv : validateTarget env req =
      ⟨none, [⟨"❌ Please enter a valid path.", "danger"⟩]⟩ := by
    simp only [validateTarget, hfp, hsrc]
    simp
  have hguard : (decide (req.folder_path = none) && req.operations.isEmpty) = false := by
    simp [hne]
  simp only [postIndex, hguard, Bool.false_eq_true, if_false, hv,
    Option.isSome_none, runOps]
  obtain ⟨hs, hi, l, hf⟩ :=
    foldl_preserves req.operations (opChain ⟨env, req, none, none⟩)
      (opChain_preserves ⟨env, req, none, none⟩ rfl)
      ⟨[⟨"❌ Please enter a valid path.", "danger"⟩], [], [], []⟩
  refine ⟨?_, ?_, ?_⟩
  · rw [hf]
    exact List.mem_append_left _ (by simp)
  · rw [hs]
  · rw [hi]

/-- Witness for the C3 theorem at a concrete request. -/
theorem c3_missing_path_rejected_witness :
    (⟨"❌ Please enter a valid path.", "danger"⟩ : Flash) ∈
      (postIndex envOkAll reqNoPathRename).flashes ∧
    (postIndex envOkAll reqNoPathRename).summary = [] ∧
    (postIndex envOkAll reqNoPathRename).invoked = [] :=
  c3_missing_path_rejected envOkAll reqNoPathRename rfl
    ⟨"rename_files", by decide, by decide⟩

/-- C4: with no target and only URL-only operations selected, the validator
substitutes the process-default downloads directory, flashes an informational
notice, and does not reject the request. -/
theorem c4_url_only_default_path (env : Env) (req : ReqForm)
    (hfp : req.folder_path = none) (hne : req.operations ≠ [])
    (hall : ∀ op ∈ req.operations, op ∈ URL_ONLY_OPERATIONS)
    (hex : env.pathExists (downloadsDir env) = true) :
    validateTarget env req = ⟨some (downloadsDir env), [defaultPathNotice env]⟩ ∧
    (postIndex env req).resolved = some (downloadsDir env) ∧
    (⟨"❌ Please enter a valid path.", "danger"⟩ : Flash) ∉
      (validateTarget env req).flashes := by
  have hne2 : req.operations.isEmpty = false := by
    cases hl : req.operations with
    | nil => exact absurd hl hne
    | cons a l => simp
  have hsrc : (req.operations.any fun op => !(URL_ONLY_OPERATIONS.contains op)) = false := by
    rw [List.any_eq_false]
    intro op hop
    simp [hall op hop]
  have hv : validateTarget env req =
      ⟨some (downloadsDir env), [defaultPathNotice env]⟩ := by
    rw [downloadsDir] at hex
    simp only [validateTarget, hfp, hsrc, hne2, downloadsDir, defaultPathNotice]
    simp [hex]
  refine ⟨hv, ?_, ?_⟩
  · have hguard : (decide (req.folder_path = none) && req.operations.isEmpty) = false := by
      simp [hne2]
    simp only [postIndex, hguard, Bool.false_eq_true, if_false, hv]
  · rw [hv]
    simp [defaultPathNotice]

/-- Witness for the C4 theorem at a concrete request. -/
theorem c4_url_only_default_path_witness :
    validateTarget envOkAll reqNoPathScrape =
      ⟨some (downloadsDir envOkAll), [defaultPathNotice envOkAll]⟩ ∧
    (postIndex envOkAll reqNoPathScrape).resolved = some (downloadsDir envOkAll) ∧
    (⟨"❌ Please enter a valid path.", "danger"⟩ : Flash) ∉
      (validateTarget envOkAll reqNoPathScrape).flashes :=
  c4_url_only_default_path envOkAll reqNoPathScrape rfl (by decide) (by decide) rfl

/-- C9 counterexample scenario evaluated: a request with a valid target and
no selected operations produces no flash at all, in particular no
select-an-operation warning. -/
theorem c9_target_no_ops_evaluated :
    (postIndex envOkAll reqTargetNoOps).flashes = [] ∧
    (postIndex envOkAll reqTargetNoOps).summary = [] := by
  decide

/-- C9 (amended): the select-an-operation warning fires exactly when both the
target and the operation list are missing; with a target supplied and no
operations, the request is not rejected and nothing at all happens. -/
theorem c9_no_ops_warning_only_without_target :
    (∀ (env : Env) (req : ReqForm), req.folder_path = none → req.operations = [] →
      postIndex env req =
        ⟨[⟨"❌ Please select an operation.", "warning"⟩], [], [], [], none⟩) ∧
    (∀ (env : Env) (req : ReqForm) (p : String), req.operations = [] →
      req.folder_path = some p → env.pathExists p = true →
      (postIndex env req).flashes = [] ∧ (postIndex env req).summary = [] ∧
        (postIndex env req).invoked = []) := by
  constructor
  · intro env req h1 h2
    simp [postIndex, h1, h2]
  · intro env req p hops hfp hex
    have hv : validateTarget env req = ⟨some p, []⟩ := by
      simp only [validateTarget, hfp, hops]
      simp [hex]
    simp only [postIndex, hv, runOps, hops, Option.isSome_some, if_true]
    rw [foldl_no_ops]
    simp [hfp]

/-- Witness for the amended C9 theorem at concrete requests. -/
theorem c9_no_ops_warning_witness :
    postIndex envOkAll reqEmpty =
      ⟨[⟨"❌ Please select an operation.", "warning"⟩], [], [], [], none⟩ ∧
    (postIndex envOkAll reqTargetNoOps).invoked = [] :=
  ⟨c9_no_ops_warning_only_without_target.1 envOkAll reqEmpty rfl rfl,
    (c9_no_ops_warning_only_without_target.2 envOkAll reqTargetNoOps "/data" rfl rfl rfl).2.2⟩

/-- Moving under `dry_run` never changes the directory. -/
theorem move_file_to_year_folder_dry (d : YDir) (f : YFile) (year : Nat) :
    (move_file_to_year_folder true d f year).2 = d := by
  unfold move_file_to_year_folder
  split
  · rfl
  · rfl

/-- The year-segregation fold under `dry_run` keeps the directory. -/
theorem segregate_fold_dry (fs : List YFile) (acc : List String × YDir) :
    (fs.foldl
      (fun (acc : List String × YDir) (f : YFile) =>
        let r := move_file_to_year_folder true acc.2 f (process_file_target_year f)
        (acc.1 ++ [r.1], r.2))
      acc).2 = acc.2 := by
  induction fs generalizing acc with
  | nil => rfl
  | cons f rest ih =>
      simp only [List.foldl_cons]
      rw [ih]
      exact move_file_to_year_folder_dry acc.2 f (process_file_target_year f)

/-- C2 (amended, positive part): `segregate_files_by_year` honors `dry_run`:
the directory is untouched, and a second dry run over the unchanged directory
reports the same moved/skipped counts. -/
theorem c2_segregate_by_year_dry_run_pure (d : YDir) :
    (segregate_files_by_year true d).2 = d ∧
    (segregate_files_by_year true ((segregate_files_by_year true d).2)).1 =
      (segregate_files_by_year true d).1 := by
  have hfix : (segregate_files_by_year true d).2 = d := by
    unfold segregate_files_by_year
    exact segregate_fold_dry d.files ([], d)
  exact ⟨hfix, by rw [hfix]⟩

/-- C2 counterexample: a dry-run request dispatching
`compress_videos_in_folder` passes no dry-run flag at all (the script has no
such parameter), and the script mutates the target directory: it creates the
`Compressed` subfolder and writes a transcoded copy of the video. -/
theorem c2_compress_videos_mutates_on_dry_request :
    reqDryCompress.dry_run = true ∧
    (postIndex envOkAll reqDryCompress).invoked =
      [⟨"compress_videos_in_folder", none, some "/videos"⟩] ∧
    compress_videos_in_folder ffmpegAll vdirOneVideo ≠ vdirOneVideo ∧
    compress_videos_in_folder ffmpegAll vdirOneVideo =
      ⟨["movie.mp4"], some ["movie.mp4"]⟩ := by
  refine ⟨rfl, by decide, by decide, by decide⟩

/-- C7: a manifest carrying a truthy top-level `error` string makes the
`download_playlist` and `backup_git_work` blocks flash the error text as a
danger message, still record the log-file basename in the summary entry, and
complete without raising. -/
theorem c7_soft_failure_keeps_log (ctx : Ctx) (st : St) (t : String)
    (m : Manifest) (e : String) (hts : ctx.ts = some t) (hme : m.error = some e)
    (hne : e ≠ "") :
    (∀ u, ctx.req.playlist_url = some u →
      ctx.env.impl "download_playlist" false = .ok m →
      blockDownloadPlaylistBody ctx st =
        .done (((st.invoke "download_playlist" none ctx.fp).flash e
            "danger").setEntry "download_playlist"
          ⟨basename (pathJoin (logDir ctx.env) ("playlist_log_" ++ t ++ ".txt")),
            none⟩)) ∧
    (ctx.env.impl "backup_git_work" false = .ok m →
      blockBackupGitWorkBody ctx st =
        .done (((st.invoke "backup_git_work" none ctx.fp).flash e
            "danger").setEntry "backup_git_work"
          ⟨basename (pathJoin (logDir ctx.env) ("git_backup_log_" ++ t ++ ".txt")),
            none⟩)) := by
  constructor
  · intro u hu himpl
    simp only [blockDownloadPlaylistBody, hu, hts, himpl, hme, Option.getD_some]
    rw [if_neg hne]
  · intro himpl
    simp only [blockBackupGitWorkBody, hts, himpl, hme, Option.getD_some]
    rw [if_neg hne]

/-- Witness for the C7 theorem at a concrete soft-failure manifest. -/
theorem c7_soft_failure_keeps_log_witness :
    blockDownloadPlaylistBody ctxSoftError {} =
      .done (((St.invoke {} "download_playlist" none (some "/data")).flash
          "❌ Error: yt-dlp library is missing. Please install it using: pip install yt-dlp"
          "danger").setEntry "download_playlist"
        ⟨basename (pathJoin (logDir envSoftError)
            ("playlist_log_" ++ "20240101_120000" ++ ".txt")), none⟩) ∧
    blockBackupGitWorkBody ctxSoftError {} =
      .done (((St.invoke {} "backup_git_work" none (some "/data")).flash
          "❌ Error: yt-dlp library is missing. Please install it using: pip install yt-dlp"
          "danger").setEntry "backup_git_work"
        ⟨basename (pathJoin (logDir envSoftError)
            ("git_backup_log_" ++ "20240101_120000" ++ ".txt")), none⟩) :=
  ⟨(c7_soft_failure_keeps_log ctxSoftError {} "20240101_120000" manifestSoftError
      _ rfl rfl (by decide)).1 "http://example.com/playlist" rfl rfl,
    (c7_soft_failure_keeps_log ctxSoftError {} "20240101_120000" manifestSoftError
      _ rfl rfl (by decide)).2 rfl⟩

/-- C8: one janitor sweep over an existing temp directory deletes exactly
the regular files whose modification time lies more than 3600 seconds before
the sweep time and whose removal succeeds; every younger file and every
non-regular entry survives, and each failed removal is logged while the sweep
continues over the remaining entries. -/
theorem c8_janitor_sweep (now : Int) (removeFails : String → Option String)
    (entries : List TEntry) :
    cleanup_temp_files now true removeFails entries =
      (entries.filter (fun e =>
          !(e.isFile && decide ((now : Int) - e.mtime > 3600) &&
            (removeFails e.name).isNone)),
        (entries.filter (fun e =>
            e.isFile && decide ((now : Int) - e.mtime > 3600) &&
              (removeFails e.name).isSome)).map
          (fun e =>
            let n := e.name
            let ex := (removeFails e.name).getD ""
            s!"Error cleaning {n}: {ex}")) := by
  rw [cleanup_temp_files]
  simp only [Bool.not_true, Bool.false_eq_true, if_false]
  induction entries with
  | nil => rfl
  | cons e rest ih =>
      cases hif : e.isFile with
      | false =>
          simp only [cleanupSweep, hif, Bool.false_and, Bool.false_eq_true, if_false,
            List.filter_cons, Bool.not_false, if_true, ih]
      | true =>
          cases hold : decide ((now : Int) - e.mtime > 3600) with
          | false =>
              simp only [cleanupSweep, hif, hold, Bool.true_and, Bool.and_false,
                Bool.false_and, Bool.false_eq_true, if_false, List.filter_cons,
                Bool.not_false, if_true, ih]
          | true =>
              rcases hrf : removeFails e.name with _ | ex
              · simp only [cleanupSweep, hif, hold, hrf, Bool.true_and, Bool.and_true,
                  if_true, List.filter_cons, Option.isNone_none, Option.isSome_none,
                  Bool.not_true, Bool.false_eq_true, if_false, ih]
              · simp only [cleanupSweep, hif, hold, hrf, Bool.true_and, Bool.and_true,
                  if_true, List.filter_cons, Option.isNone_some, Option.isSome_some,
                  Bool.not_false, Option.getD_some, List.map_cons, ih]

/-- The scraper loop only ever touches the two count fields. -/
theorem scrape_foldl_output_dir (runUrl : String → ScrapeUrlRes)
    (urls : List String) (acc : Manifest) :
    (urls.foldl
      (fun acc url =>
        let u := strTrim url
        if u = "" then acc
        else
          match runUrl u with
          | .res err =>
              { acc with
                  errors := acc.errors + (if err.isSome then 1 else 0),
                  total_processed := acc.total_processed + 1 }
          | .raisesExc _ => { acc with errors := acc.errors + 1 })
      acc).output_dir = acc.output_dir := by
  induction urls generalizing acc with
  | nil => rfl
  | cons url rest ih =>
      simp only [List.foldl_cons]
      rw [ih]
      by_cases hu : strTrim url = ""
      · simp [hu]
      · rcases hr : runUrl (strTrim url) with err | e
        · simp [hu, hr]
        · simp [hu, hr]

/-- C6: `scrape_images_task` returns a manifest without `output_dir`, so the
handler's zip-and-attach step — which is guarded by
`result.get('output_dir')` — never runs: the `scrape_images` summary entry
never receives a download link and nothing is written to the temp
directory. -/
theorem c6_scrape_zip_block_dead :
    (∀ (urls : List String) (runUrl : String → ScrapeUrlRes),
      (scrape_images_task_result urls runUrl).output_dir = none) ∧
    (∀ (ctx : Ctx) (st : St) (t : String) (m : Manifest), ctx.ts = some t →
      strTrim ctx.req.scraper_urls ≠ "" →
      ctx.env.impl "scrape_images" false = .ok m → m.output_dir = none →
      lookupKey (blockScrapeImages ctx st).summary "scrape_images" =
        some ⟨basename (pathJoin (logDir ctx.env) ("scraper_log_" ++ t ++ ".txt")),
          none⟩ ∧
      (blockScrapeImages ctx st).temp = st.temp) := by
  constructor
  · intro urls runUrl
    exact scrape_foldl_output_dir runUrl urls { total_processed := 0, errors := 0 }
  · intro ctx st t m hts hu himpl hod
    simp only [blockScrapeImages, blockScrapeImagesBody, hu, if_false, hts, himpl, hod,
      tryExcept, St.setEntry_summary, St.setEntry_temp, St.flash_summary, St.flash_temp,
      St.invoke_summary, St.invoke_temp, lookupKey_setKey]
    exact ⟨trivial, trivial⟩

/-- Witness for the C6 theorem at a concrete scrape run. -/
theorem c6_scrape_zip_block_dead_witness :
    (scrape_images_task_result ["http://example.com/gallery"]
        (fun _ => .res none)).output_dir = none ∧
    lookupKey (blockScrapeImages ctxScrape {}).summary "scrape_images" =
      some ⟨basename (pathJoin (logDir envScrape)
          ("scraper_log_" ++ "20240101_120000" ++ ".txt")), none⟩ ∧
    (blockScrapeImages ctxScrape ({} : St)).temp = ({} : St).temp :=
  ⟨c6_scrape_zip_block_dead.1 ["http://example.com/gallery"] (fun _ => .res none),
    (c6_scrape_zip_block_dead.2 ctxScrape {} "20240101_120000" manifestScrape rfl
      (by decide) rfl rfl).1,
    (c6_scrape_zip_block_dead.2 ctxScrape {} "20240101_120000" manifestScrape rfl
      (by decide) rfl rfl).2⟩

/-- Lookup after storing an entry and then attaching its link. -/
theorem lookupKey_updateLink_setKey (m : List (String × Entry)) (k : String)
    (v : Entry) (link : String) :
    lookupKey (updateLink (setKey m k v) k link) k =
      some { v with download_link := some link } := by
  rw [lookupKey_updateLink, lookupKey_setKey]
  rfl

/-- C5: the packaging step for a manifest listing exactly one generated file
copies it into the temp directory under its original basename and attaches
that basename as the download link; for three generated files it writes a
single `.zip` archive whose members are the three original basenames and
attaches the zip name. -/
theorem c5_ocr_packaging (ctx : Ctx) (st : St) (t : String) (m : Manifest)
    (hts : ctx.ts = some t)
    (himpl : ctx.env.impl "extract_text" ctx.req.dry_run = .ok m) :
    (∀ p, m.generated_files = [.str p] →
      lookupKey (blockExtractText ctx st).summary "extract_text" =
        some ⟨basename (pathJoin (logDir ctx.env) ("ocr_log_" ++ t ++ ".txt")),
          some (basename p)⟩ ∧
      TempFile.copy (basename p) p ∈ (blockExtractText ctx st).temp) ∧
    (∀ p1 p2 p3, m.generated_files = [.str p1, .str p2, .str p3] →
      lookupKey (blockExtractText ctx st).summary "extract_text" =
        some ⟨basename (pathJoin (logDir ctx.env) ("ocr_log_" ++ t ++ ".txt")),
          some (ocrZipName ctx.env.unixTime)⟩ ∧
      TempFile.zip (ocrZipName ctx.env.unixTime)
          [basename p1, basename p2, basename p3] ∈
        (blockExtractText ctx st).temp ∧
      ∃ stem, ocrZipName ctx.env.unixTime = stem ++ ".zip") := by
  constructor
  · intro p hgf
    simp only [blockExtractText, blockExtractTextBody, hts, himpl, hgf,
      List.isEmpty_cons, Bool.false_eq_true, if_false, List.length_singleton,
      if_true, reduceIte, tryExcept, St.setLink_summary, St.addTemp_summary,
      St.setEntry_summary, St.flash_summary, St.invoke_summary, St.setLink_temp,
      St.addTemp_temp, St.setEntry_temp, St.flash_temp, St.invoke_temp,
      lookupKey_updateLink_setKey]
    exact ⟨trivial, List.mem_append_right _ (by simp)⟩
  · intro p1 p2 p3 hgf
    simp only [blockExtractText, blockExtractTextBody, hts, himpl, hgf,
      List.isEmpty_cons, Bool.false_eq_true, if_false, List.length_cons,
      List.length_nil, Nat.reduceAdd, writeMembers]
    rw [if_neg (show ¬(3 = 1) by decide)]
    simp only [tryExcept, St.setLink_summary, St.addTemp_summary, St.setEntry_summary,
      St.flash_summary, St.invoke_summary, St.setLink_temp, St.addTemp_temp,
      St.setEntry_temp, St.flash_temp, St.invoke_temp, lookupKey_updateLink_setKey]
    refine ⟨rfl, List.mem_append_right _ (by simp [ocrZipName]), ?_⟩
    exact ⟨"OCR_Results_" ++ toString ctx.env.unixTime, rfl⟩

/-- Witness for the C5 theorem at concrete one-file and three-file
manifests. -/
theorem c5_ocr_packaging_witness :
    (lookupKey (blockExtractText ctxOcrOne {}).summary "extract_text" =
      some ⟨basename (pathJoin (logDir envOcrOne) ("ocr_log_" ++ "20240101_120000" ++ ".txt")),
        some (basename "/data/report_OCR.docx")⟩ ∧
      TempFile.copy (basename "/data/report_OCR.docx") "/data/report_OCR.docx" ∈
        (blockExtractText ctxOcrOne {}).temp) ∧
    (lookupKey (blockExtractText ctxOcrThree {}).summary "extract_text" =
      some ⟨basename (pathJoin (logDir envOcrThree) ("ocr_log_" ++ "20240101_120000" ++ ".txt")),
        some (ocrZipName envOcrThree.unixTime)⟩ ∧
      TempFile.zip (ocrZipName envOcrThree.unixTime)
          [basename "/data/a_OCR.docx", basename "/data/b_OCR.docx",
            basename "/data/c_OCR.docx"] ∈
        (blockExtractText ctxOcrThree {}).temp) :=
  ⟨(c5_ocr_packaging ctxOcrOne {} "20240101_120000" manifestOneFile rfl rfl).1
      "/data/report_OCR.docx" rfl,
    ⟨((c5_ocr_packaging ctxOcrThree {} "20240101_120000" manifestThreeFiles rfl rfl).2
        "/data/a_OCR.docx" "/data/b_OCR.docx" "/data/c_OCR.docx" rfl).1,
      ((c5_ocr_packaging ctxOcrThree {} "20240101_120000" manifestThreeFiles rfl rfl).2
        "/data/a_OCR.docx" "/data/b_OCR.docx" "/data/c_OCR.docx" rfl).2.1⟩⟩

/-- The OCR loop only ever appends the boolean `true` to
`generated_files`. -/
theorem ocrLoop_all_bool (ocr : String → Except Exc Bool) (l : List String)
    (acc r : Manifest) (h : ocrLoop ocr l acc = .ok r)
    (hacc : ∀ v ∈ acc.generated_files, v = PyVal.bool true) :
    ∀ v ∈ r.generated_files, v = PyVal.bool true := by
  induction l generalizing acc with
  | nil =>
      simp only [ocrLoop, Except.ok.injEq] at h
      subst h
      exact hacc
  | cons f rest ih =>
      simp only [ocrLoop] at h
      rcases hf : ocr f with e | b
      · rw [hf] at h
        by_cases he : e.envError = true
        · simp [he] at h
        · simp only [he, Bool.false_eq_true, if_false] at h
          exact ih _ h hacc
      · rw [hf] at h
        cases b with
        | false => exact ih _ h hacc
        | true =>
            simp only [if_true] at h
            refine ih _ h ?_
            intro v hv
            rcases List.mem_append.1 hv with h1 | h2
            · exact hacc v h1
            · simpa using h2

/-- A nonempty `generated_files` accumulator stays nonempty through the OCR
loop. -/
theorem ocrLoop_mono_nonempty (ocr : String → Except Exc Bool)
    (l : List String) (acc r : Manifest) (h : ocrLoop ocr l acc = .ok r)
    (hacc : acc.generated_files ≠ []) : r.generated_files ≠ [] := by
  induction l generalizing acc with
  | nil =>
      simp only [ocrLoop, Except.ok.injEq] at h
      subst h
      exact hacc
  | cons f rest ih =>
      simp only [ocrLoop] at h
      rcases hf : ocr f with e | b
      · rw [hf] at h
        by_cases he : e.envError = true
        · simp [he] at h
        · simp only [he, Bool.false_eq_true, if_false] at h
          exact ih _ h hacc
      · rw [hf] at h
        cases b with
        | false => exact ih _ h hacc
        | true =>
            simp only [if_true] at h
            exact ih _ h (by simp)

/-- A successful extraction inside the loop guarantees a nonempty
`generated_files`. -/
theorem ocrLoop_extracted_nonempty (step : String → OcrStep)
    (l : List String) (acc r : Manifest)
    (h : ocrLoop (fun f => process_single_image (step f)) l acc = .ok r)
    (hex : ∃ f ∈ l, (step f).isExtracted = true) : r.generated_files ≠ [] := by
  induction l generalizing acc with
  | nil => simp at hex
  | cons f rest ih =>
      simp only [ocrLoop] at h
      rcases hs : step f with _ | e0 | _ | txt
      · rw [hs] at h
        simp [process_single_image] at h
      · rw [hs] at h
        simp only [process_single_image, Bool.false_eq_true, if_false] at h
        obtain ⟨f0, hf0, hext⟩ := hex
        rcases List.mem_cons.1 hf0 with rfl | hmem
        · rw [hs] at hext
          simp [OcrStep.isExtracted] at hext
        · exact ih _ h ⟨f0, hmem, hext⟩
      · rw [hs] at h
        simp only [process_single_image, Bool.false_eq_true, if_false] at h
        obtain ⟨f0, hf0, hext⟩ := hex
        rcases List.mem_cons.1 hf0 with rfl | hmem
        · rw [hs] at hext
          simp [OcrStep.isExtracted] at hext
        · exact ih _ h ⟨f0, hmem, hext⟩
      · rw [hs] at h
        simp only [process_single_image, if_true] at h
        exact ocrLoop_mono_nonempty _ rest _ r h (by simp)

/-- C10: a live `extract_text_task` run that extracts text from at least one
image returns a `generated_files` list of booleans `True` (the return value
of `process_single_image`) rather than output paths; the handler's packaging
step then raises the basename TypeError, so the `extract_text` summary entry
keeps its log file but never receives a download link, and the OCR error is
flashed. -/
theorem c10_ocr_generated_files_booleans :
    (∀ (files : List String) (step : String → OcrStep) (r : Manifest),
      extract_text_task true false files
          (fun f => process_single_image (step f)) = .ok r →
      (∃ f ∈ files, (step f).isExtracted = true) →
      r.generated_files ≠ [] ∧ ∀ v ∈ r.generated_files, v = PyVal.bool true) ∧
    (∀ (ctx : Ctx) (st : St) (t : String) (r : Manifest), ctx.ts = some t →
      ctx.env.impl "extract_text" ctx.req.dry_run = .ok r →
      r.generated_files ≠ [] → (∀ v ∈ r.generated_files, v = PyVal.bool true) →
      lookupKey (blockExtractText ctx st).summary "extract_text" =
        some ⟨basename (pathJoin (logDir ctx.env) ("ocr_log_" ++ t ++ ".txt")),
          none⟩ ∧
      (⟨"❌ Error in OCR: " ++ excBasenameTypeError.msg, "danger"⟩ : Flash) ∈
        (blockExtractText ctx st).flashes) := by
  constructor
  · intro files step r htask hex
    have hfe : files.isEmpty = false := by
      obtain ⟨f0, hf0, _⟩ := hex
      cases hl : files with
      | nil => rw [hl] at hf0; simp at hf0
      | cons a l => simp
    simp only [extract_text_task, Bool.not_true, Bool.false_eq_true, if_false, hfe] at htask
    refine ⟨ocrLoop_extracted_nonempty step files _ r htask hex, ?_⟩
    exact ocrLoop_all_bool _ files _ r htask (by simp)
  · intro ctx st t r hts himpl hne hall
    rcases hgf : r.generated_files with _ | ⟨v, rest⟩
    · exact absurd hgf hne
    · have hv : v = PyVal.bool true := hall v (by rw [hgf]; simp)
      subst hv
      cases rest with
      | nil =>
          simp only [blockExtractText, blockExtractTextBody, hts, himpl, hgf,
            List.isEmpty_cons, Bool.false_eq_true, if_false, List.length_singleton,
            reduceIte, tryExcept, St.setEntry_summary, St.flash_summary,
            St.invoke_summary, St.flash_flashes, St.invoke_flashes,
            St.setEntry_flashes, lookupKey_setKey, excBasenameTypeError]
          refine ⟨trivial, ?_⟩
          simp
      | cons v2 rest2 =>
          simp only [blockExtractText, blockExtractTextBody, hts, himpl, hgf,
            List.isEmpty_cons, Bool.false_eq_true, if_false, List.length_cons,
            writeMembers, tryExcept]
          rw [if_neg (by simp)]
          simp only [St.setEntry_summary, St.flash_summary, St.invoke_summary,
            St.addTemp_summary, St.flash_flashes, St.invoke_flashes,
            St.setEntry_flashes, St.addTemp_flashes, lookupKey_setKey,
            excBasenameTypeError]
          refine ⟨trivial, ?_⟩
          simp

/-- Witness for the C10 theorem at a concrete one-image run. -/
theorem c10_ocr_generated_files_booleans_witness :
    (manifestOcrBool.generated_files ≠ [] ∧
      ∀ v ∈ manifestOcrBool.generated_files, v = PyVal.bool true) ∧
    (lookupKey (blockExtractText ctxOcrBool {}).summary "extract_text" =
        some ⟨basename (pathJoin (logDir envOcrBool)
            ("ocr_log_" ++ "20240101_120000" ++ ".txt")), none⟩ ∧
      (⟨"❌ Error in OCR: " ++ excBasenameTypeError.msg, "danger"⟩ : Flash) ∈
        (blockExtractText ctxOcrBool {}).flashes) :=
  ⟨c10_ocr_generated_files_booleans.1 ["/imgs/a.png"] ocrStepAll manifestOcrBool
      rfl ⟨"/imgs/a.png", by decide, by decide⟩,
    c10_ocr_generated_files_booleans.2 ctxOcrBool {} "20240101_120000"
      manifestOcrBool rfl rfl (by decide) (by decide)⟩
